import Mathlib

/-!
Verification of the `buddy` CLI tool (src/src/main.rs): a thin front-end that
scaffolds a package skeleton (`new_package`) and delegates `build`/`run` to the
external bazel binary, reformatting its stderr lines.

Shallow embedding conventions:
- Rust `String`s printed or compared are Lean `String`s; stderr lines, on which
  the code performs byte-indexed `split_at`, are `List Char`, with each
  character carrying its UTF-8 byte size (`Char.utf8Size`).  Byte indexing is
  modelled exactly: `split_at(mid)` succeeds only when `mid` is the total byte
  size of a prefix of characters, and panics both past the end and on a byte
  index that falls inside a multi-byte character.
- Terminal colouring (`.green()`, `.red()` from the `colored` crate) is an
  ANSI-escape decoration around the same text; we model the printed text only.
- A Rust panic (`unwrap`, `expect`, `split_at` out of bounds) is modelled as
  `Option.none`: the process aborts and produces no value.
- Filesystem effects are recorded as a list of `FsWrite` actions the function
  performs; the existence check `Path::new(name).exists()` is an input `Bool`.
- The child process's exit status is an input that the code never inspects.
-/

namespace Buddy

/-- `struct Package` of main.rs (config schema, lines 195-200). -/
structure Package where
  name : String
  version : String
  edition : String
deriving DecidableEq

/-- `struct Dependency` of main.rs (lines 202-206). -/
structure Dependency where
  name : String
  version : String
deriving DecidableEq

/-- `struct Config` of main.rs (lines 208-212).  The `BTreeMap<String, Dependency>`
is modelled as an association list. -/
structure Config where
  package : Package
  dependencies : List (String × Dependency)
deriving DecidableEq

/-- The default configuration synthesized in `main` (lines 225-232) when
reading `Buddy.toml` fails (file missing). -/
def defaultConfig : Config :=
  { package := { name := "default", version := "0.1.0", edition := "2021" }
    dependencies := [] }

/-- The config-loading logic of `main` (lines 222-233).  `readResult` is the
outcome of `fs::read_to_string("Buddy.toml")` (`none` = the file could not be
read, e.g. it does not exist).  `parse` abstracts the external
`toml::from_str` parser (`none` = parse error); its `.unwrap()` on a parse
error is a panic, modelled as the overall result `none`. -/
def loadConfig (readResult : Option String) (parse : String → Option Config) :
    Option Config :=
  match readResult with
  | some content => parse content
  | none => some defaultConfig

/-- A single filesystem mutation performed by the scaffolder. -/
inductive FsWrite
  | createDir (path : List String)
  | writeFile (path : List String) (content : String)
deriving DecidableEq

/-- Contents written to `<name>/Buddy.toml` by `new_package` (lines 27-37). -/
def buddyTomlTemplate (packageName : String) : String :=
  "[package]\nname = \"" ++ packageName ++
    "\"\nversion = \"0.1.0\"\nedition = \"2023\"\n\n[dependencies]"

/-- Contents written to `<name>/src/BUILD` by `new_package` (lines 39-50). -/
def srcBuildTemplate (packageName : String) : String :=
  "load(\"@rules_cc//cc:defs.bzl\", \"cc_binary\")\n\ncc_binary(\n    name = \"" ++
    packageName ++ "\",\n    srcs = [\"main.cc\"],\n)"

/-- Contents written to `<name>/src/main.cc` by `new_package` (lines 52-78);
the Rust template's doubled braces denote literal braces. -/
def mainCcTemplate : String :=
  "#include <ctime>\n#include <string>\n#include <iostream>\n\nstd::string get_greet(const std::string& who) \x7b\n  return \"Hello \" + who;\n\x7d\n\nvoid print_localtime() \x7b\n  std::time_t result = std::time(nullptr);\n  std::cout << std::asctime(std::localtime(&result));\n\x7d\n\nint main(int argc, char** argv) \x7b\n  std::string who = \"world\";\n  if (argc > 1) \x7b\n    who = argv[1];\n  \x7d\n  std::cout << get_greet(who) << std::endl;\n  print_localtime();\n  return 0;\n\x7d"

/-- What one call to `new_package` does: lines printed to stdout, filesystem
mutations performed (in order), and the returned `std::io::Result<()>`. -/
structure NewPackageOutcome where
  printed : List String
  writes : List FsWrite
  result : Except String Unit

/-- `fn new_package` of main.rs (lines 14-89).  `pathExists` is the value of
`Path::new(package_name).exists()`.  In the creation branch every filesystem
operation's error would propagate via `?`; the successful sequence of writes is
recorded here (the claims under verification concern the already-exists branch,
where no filesystem operation happens at all).  Colour decoration of the words
`Created` / `error` is omitted as explained in the header. -/
def new_package (packageName : String) (pathExists : Bool) : NewPackageOutcome :=
  if !pathExists then
    { printed := ["    Created binary (application) `" ++ packageName ++ "` package"]
      writes :=
        [FsWrite.createDir [packageName],
         FsWrite.createDir [packageName, "src"],
         FsWrite.writeFile [packageName, "WORKSPACE"] "",
         FsWrite.writeFile [packageName, "Buddy.toml"] (buddyTomlTemplate packageName),
         FsWrite.writeFile [packageName, "src", "BUILD"] (srcBuildTemplate packageName),
         FsWrite.writeFile [packageName, "src", "main.cc"] mainCcTemplate]
      result := Except.ok () }
  else
    { printed := ["error: destination `" ++ packageName ++ "` already exixts"]
      writes := []
      result := Except.ok () }

/-- The argument vector constructed by `fn build` (lines 92-104), in the order
the `cmd.arg` calls issue them. -/
def buildArgv (args : List String) : List String :=
  ["--output_base=target/build", "build", "--symlink_prefix=target/"] ++
    (if args.length ≠ 0 then args else ["//src/..."])

/-- The argument vector constructed by `fn run` (lines 134-146), in the order
the `cmd.arg` calls issue them. -/
def runArgv (config : Config) (args : List String) : List String :=
  ["--output_base=target/build", "run", "--symlink_prefix=target/"] ++
    (if args.length ≠ 0 then args else ["//src:" ++ config.package.name])

/-- The 5-character string `"INFO:"` that `line.starts_with` tests against in
`build` (line 116) and `run` (line 158). -/
def infoTag : List Char := ['I', 'N', 'F', 'O', ':']

/-- Rust `str::split_at(mid)`: `mid` is a byte index into the UTF-8 encoding
of the string.  The call panics (`none`) unless `mid` lands exactly on a
character boundary at or before the end of the string, i.e. unless `mid` is the
total UTF-8 byte size of some prefix of the character list; in particular it
panics when `mid` falls inside a multi-byte character. -/
def splitAtChecked (mid : Nat) : List Char → Option (List Char × List Char)
  | [] => if mid = 0 then some ([], []) else none
  | c :: cs =>
    if mid = 0 then some ([], c :: cs)
    else if c.utf8Size ≤ mid then
      (splitAtChecked (mid - c.utf8Size) cs).map (fun p => (c :: p.1, p.2))
    else none

/-- Loop body of the stderr loop in `fn build` (lines 114-122): the line
printed for one input line, or `none` when `line.split_at(6)` panics.  A
reformatted line is printed as `"INFO:"` (green) + one space + the remainder. -/
def buildFormatLine (line : List Char) : Option (List Char) :=
  if infoTag.isPrefixOf line then
    match splitAtChecked 6 line with
    | some (_, message) => some ("INFO: ".toList ++ message)
    | none => none
  else
    some line

/-- Loop body of the stderr loop in `fn run` (lines 156-164), textually
identical to the one in `build`. -/
def runFormatLine (line : List Char) : Option (List Char) :=
  if infoTag.isPrefixOf line then
    match splitAtChecked 6 line with
    | some (_, message) => some ("INFO: ".toList ++ message)
    | none => none
  else
    some line

/-- The whole stderr loop of `fn build`: the lines printed, or `none` when some
line makes the loop body panic (aborting the process). -/
def buildProcessStderr : List (List Char) → Option (List (List Char))
  | [] => some []
  | l :: ls =>
    match buildFormatLine l with
    | none => none
    | some out => (buildProcessStderr ls).map (fun rest => out :: rest)

/-- The whole stderr loop of `fn run`, textually identical to `build`'s. -/
def runProcessStderr : List (List Char) → Option (List (List Char))
  | [] => some []
  | l :: ls =>
    match runFormatLine l with
    | none => none
    | some out => (runProcessStderr ls).map (fun rest => out :: rest)

/-- The `bazel-out` cleanup at the end of `fn build` (lines 125-128): given
whether `bazel-out` exists, whether it is removed. -/
def buildCleanup (bazelOutExists : Bool) : Bool := bazelOutExists

/-- The `bazel-out` cleanup at the end of `fn run` (lines 167-170), textually
identical to `build`'s. -/
def runCleanup (bazelOutExists : Bool) : Bool := bazelOutExists

/-- Observable outcome of one `build`/`run` invocation: the argv passed to the
bazel child, the stderr lines printed after reformatting, whether `bazel-out`
was removed, and the `Result` returned to `main`. -/
structure InvokeOutcome where
  argv : List String
  printed : List (List Char)
  removedBazelOut : Bool
  result : Except String Unit

/-- `fn build` of main.rs (lines 91-131), end to end.  `stderrLines` are the
lines the child emits on its stderr and `childExitStatus` is the child's exit
status — the function never reads it (the child is spawned and its stderr
drained, `wait` is never called on the status).  `none` models a panic in the
line loop. -/
def build (args : List String) (stderrLines : List (List Char))
    (childExitStatus : Int) (bazelOutExists : Bool) : Option InvokeOutcome :=
  match buildProcessStderr stderrLines with
  | none => none
  | some printed =>
    some { argv := buildArgv args
           printed := printed
           removedBazelOut := buildCleanup bazelOutExists
           result := Except.ok () }

/-- `fn run` of main.rs (lines 133-173), end to end; same shape as `build`,
with the config feeding only the default target. -/
def run (config : Config) (args : List String) (stderrLines : List (List Char))
    (childExitStatus : Int) (bazelOutExists : Bool) : Option InvokeOutcome :=
  match runProcessStderr stderrLines with
  | none => none
  | some printed =>
    some { argv := runArgv config args
           printed := printed
           removedBazelOut := runCleanup bazelOutExists
           result := Except.ok () }

/-- Generic argument-vector form used to state the refinement claim that
`build` and `run` construct the same vector up to the subcommand token and the
empty-argument default target (this definition follows the claim's wording, to
be compared with `buildArgv`/`runArgv` transcribed from the source). -/
def invokeArgv (subcommand : String) (defaultTarget : String)
    (args : List String) : List String :=
  ["--output_base=target/build", subcommand, "--symlink_prefix=target/"] ++
    (if args.length ≠ 0 then args else [defaultTarget])

/-- Claim C1, counterexample: with an empty argument list, `build`'s argument
vector is not flag, flag, subcommand, default target — the subcommand token is
issued between the two fixed flags, not after them. -/
theorem C1_counterexample :
    buildArgv [] ≠
      ["--output_base=target/build", "--symlink_prefix=target/", "build", "//src/..."] := by
  decide

/-- Claim C1, amended: for every invocation of the process runner (build or
run), the argument vector passed to the external tool is, in order: the fixed
flag `--output_base=target/build`, then the literal subcommand token (`build`
or `run`), then the fixed flag `--symlink_prefix=target/`, then either the
caller-supplied extra arguments verbatim if non-empty or the single default
target. -/
theorem C1_argv_order (config : Config) (args : List String) :
    buildArgv args =
      ["--output_base=target/build", "build", "--symlink_prefix=target/"] ++
        (if args = [] then ["//src/..."] else args) ∧
    runArgv config args =
      ["--output_base=target/build", "run", "--symlink_prefix=target/"] ++
        (if args = [] then ["//src:" ++ config.package.name] else args) := by
  cases args <;> simp [buildArgv, runArgv]

/-- Claim C2, counterexample: the 6-character line `INFO:x` does not begin
with the 6-character sequence `INFO: `, yet both line formatters do not print
it unchanged — they strip its first 6 bytes and print the highlighted marker
followed by the (empty) remainder. -/
theorem C2_counterexample :
    buildFormatLine ("INFO:x".toList) = some ("INFO: ".toList) ∧
    runFormatLine ("INFO:x".toList) = some ("INFO: ".toList) ∧
    ("INFO:x".toList : List Char) ≠ "INFO: ".toList := by
  refine ⟨by decide, by decide, by decide⟩

/-- Splitting at byte index 0 always succeeds and splits off nothing. -/
theorem splitAtChecked_zero (s : List Char) : splitAtChecked 0 s = some ([], s) := by
  cases s <;> simp [splitAtChecked]

/-- Splitting a line of the form `INFO:` ++ `c` ++ `cs` at byte index 6:
the five tag characters account for bytes 0-4, so the call succeeds exactly
when the next character `c` is a single UTF-8 byte, and panics when byte 6
falls inside the multi-byte `c`. -/
theorem splitAtChecked_six_infoTag (c : Char) (cs : List Char) :
    splitAtChecked 6 (infoTag ++ c :: cs) =
      if c.utf8Size = 1 then some (infoTag ++ [c], cs) else none := by
  have hI : Char.utf8Size 'I' = 1 := by decide
  have hN : Char.utf8Size 'N' = 1 := by decide
  have hF : Char.utf8Size 'F' = 1 := by decide
  have hO : Char.utf8Size 'O' = 1 := by decide
  have hcolon : Char.utf8Size ':' = 1 := by decide
  have hpos : 0 < c.utf8Size := Char.utf8Size_pos c
  by_cases hc : c.utf8Size = 1
  · simp [infoTag, splitAtChecked, hI, hN, hF, hO, hcolon, hc, splitAtChecked_zero]
  · have hgt : ¬ c.utf8Size ≤ 1 := by omega
    simp [infoTag, splitAtChecked, hI, hN, hF, hO, hcolon, hc, hgt]

/-- Claim C2, amended: the formatters in `build` and `run` test the
5-character sequence `INFO:`, not the 6-character `INFO: `.  A line not
beginning with `INFO:` is printed unchanged, byte-for-byte.  A line of the
form `INFO:` followed by a single-byte (ASCII) character and a remainder has
its first 6 bytes stripped and the remainder reprinted after the highlighted
`INFO:` marker and a space; a line of the form `INFO:` followed by a
multi-byte character panics (byte 6 is not a character boundary), and the
5-byte line exactly `INFO:` panics (byte 6 is past the end). -/
theorem C2_line_formatting (line : List Char) (c : Char) (cs : List Char) :
    (infoTag.isPrefixOf line = false →
      buildFormatLine line = some line ∧ runFormatLine line = some line) ∧
    (line = infoTag ++ c :: cs → c.utf8Size = 1 →
      buildFormatLine line = some ("INFO: ".toList ++ cs) ∧
      runFormatLine line = some ("INFO: ".toList ++ cs)) ∧
    (line = infoTag ++ c :: cs → 1 < c.utf8Size →
      buildFormatLine line = none ∧ runFormatLine line = none) ∧
    (line = infoTag →
      buildFormatLine line = none ∧ runFormatLine line = none) := by
  refine ⟨fun h => ?_, fun h hc => ?_, fun h hc => ?_, fun h => ?_⟩
  · simp [buildFormatLine, runFormatLine, h]
  · subst h
    have hpre : infoTag.isPrefixOf (infoTag ++ c :: cs) = true := by
      simp [List.isPrefixOf_iff_prefix]
    simp [buildFormatLine, runFormatLine, hpre, splitAtChecked_six_infoTag, hc]
  · subst h
    have hpre : infoTag.isPrefixOf (infoTag ++ c :: cs) = true := by
      simp [List.isPrefixOf_iff_prefix]
    have hc1 : ¬ c.utf8Size = 1 := by omega
    simp [buildFormatLine, runFormatLine, hpre, splitAtChecked_six_infoTag, hc1]
  · subst h
    exact ⟨by decide, by decide⟩

/-- Witness for C2_line_formatting: the line `abc` (no `INFO:`) passes through
unchanged; the line `INFO: done` (sixth byte the ASCII space) is reprinted as
the marker, a space, and `done`; and the 7-byte line `INFO:` followed by the
2-byte character `é` panics. -/
theorem C2_line_formatting_witness :
    buildFormatLine ("abc".toList) = some ("abc".toList) ∧
    buildFormatLine ("INFO: done".toList) = some ("INFO: ".toList ++ "done".toList) ∧
    buildFormatLine ("INFO:é".toList) = none :=
  ⟨((C2_line_formatting ("abc".toList) 'x' []).1 (by decide)).1,
   ((C2_line_formatting ("INFO: done".toList) ' ' ("done".toList)).2.1
      (by decide) (by decide)).1,
   ((C2_line_formatting ("INFO:é".toList) 'é' []).2.2.1 (by decide) (by decide)).1⟩

/-- Claim C3: for every package name whose path already exists, `new_package`
performs no filesystem write (no directory created, no file written) and
returns `Ok(())` to its caller. -/
theorem C3_exists_no_changes (name : String) :
    (new_package name true).writes = [] ∧
    (new_package name true).result = Except.ok () := by
  exact ⟨rfl, rfl⟩

/-- Claim C4: `build` and `run` return the same outcome whatever the child's
exit status is, and whenever they return at all (the line loop does not panic)
the result handed to the caller is `Ok(())` — a non-zero exit status is never
surfaced as an error. -/
theorem C4_exit_status_ignored (config : Config) (args : List String)
    (stderrLines : List (List Char)) (s1 s2 : Int) (b : Bool) :
    build args stderrLines s1 b = build args stderrLines s2 b ∧
    run config args stderrLines s1 b = run config args stderrLines s2 b ∧
    (build args stderrLines s1 b).map InvokeOutcome.result =
      (buildProcessStderr stderrLines).map (fun _ => Except.ok ()) ∧
    (run config args stderrLines s1 b).map InvokeOutcome.result =
      (runProcessStderr stderrLines).map (fun _ => Except.ok ()) := by
  refine ⟨rfl, rfl, ?_, ?_⟩
  · cases h : buildProcessStderr stderrLines <;> simp [build, h]
  · cases h : runProcessStderr stderrLines <;> simp [run, h]

/-- Claim C5: when `Buddy.toml` cannot be read (it does not exist), the loader
returns — without error — the fixed default configuration: package name
`default`, version `0.1.0`, edition `2021`, and no dependencies. -/
theorem C5_missing_file_default (parse : String → Option Config) :
    loadConfig none parse = some defaultConfig ∧
    defaultConfig.package.name = "default" ∧
    defaultConfig.package.version = "0.1.0" ∧
    defaultConfig.package.edition = "2021" ∧
    defaultConfig.dependencies = [] := by
  exact ⟨rfl, rfl, rfl, rfl, rfl⟩

/-- Claim C6: with an empty argument list, `build` appends the single default
target `//src/...` and `run` appends the single default target
`//src:<name>` with `<name>` the package name of the loaded configuration. -/
theorem C6_default_targets (config : Config) :
    buildArgv [] =
      ["--output_base=target/build", "build", "--symlink_prefix=target/", "//src/..."] ∧
    runArgv config [] =
      ["--output_base=target/build", "run", "--symlink_prefix=target/",
        "//src:" ++ config.package.name] := by
  exact ⟨rfl, rfl⟩

/-- Claim C7: when `Buddy.toml` is read but fails to parse, the process
terminates immediately (the `.unwrap()` panics): the loader produces no
configuration at all. -/
theorem C7_parse_failure_fatal (content : String) (parse : String → Option Config)
    (h : parse content = none) :
    loadConfig (some content) parse = none := by
  simp [loadConfig, h]

/-- Witness for C7_parse_failure_fatal: a parser rejecting the content `oops`
makes the loader panic. -/
theorem C7_parse_failure_fatal_witness :
    loadConfig (some "oops") (fun _ => none) = none :=
  C7_parse_failure_fatal "oops" (fun _ => none) rfl

/-- Claim C8, counterexample: for the existing destination `demo` the reported
message is not `error: destination "demo" already exists` — the code quotes
the name with backticks and misspells the last word as `exixts`. -/
theorem C8_counterexample :
    (new_package "demo" true).printed ≠
      ["error: destination \"demo\" already exists"] := by
  decide

/-- Claim C8, amended: when `new_package` is called with a name whose path
already exists, the message reported to the user is exactly
`error: destination ` + backtick + name + backtick + ` already exixts`
(backticks around the name, and `exists` misspelled `exixts`). -/
theorem C8_exists_message (name : String) :
    (new_package name true).printed =
      ["error: destination `" ++ name ++ "` already exixts"] := by
  exact rfl

/-- Claim C9: a diagnostic line exactly equal to the 5-byte string `INFO:`
makes the line formatter of `build` and of `run` panic (`split_at(6)` on a
5-byte string), so the stderr loop aborts the process instead of printing. -/
theorem C9_short_info_line_panics :
    buildFormatLine ("INFO:".toList) = none ∧
    runFormatLine ("INFO:".toList) = none ∧
    buildProcessStderr ["INFO:".toList] = none ∧
    runProcessStderr ["INFO:".toList] = none := by
  refine ⟨by decide, by decide, by decide, by decide⟩

/-- Claim C10: `build` and `run` are the same function up to two constants:
their argument vectors are both instances of the generic `invokeArgv` form,
differing only in the subcommand token (`build` vs `run`) and the
empty-argument default target (`//src/...` vs `//src:<config package name>`);
their line-formatting loops coincide on every input, and their `bazel-out`
cleanup coincides; `build` takes no configuration at all (its embedding has no
`Config` argument), so its behaviour cannot depend on it. -/
theorem C10_build_run_equivalence (config : Config) (args : List String)
    (line : List Char) (stderrLines : List (List Char)) (b : Bool) :
    buildArgv args = invokeArgv "build" "//src/..." args ∧
    runArgv config args = invokeArgv "run" ("//src:" ++ config.package.name) args ∧
    runFormatLine line = buildFormatLine line ∧
    runProcessStderr stderrLines = buildProcessStderr stderrLines ∧
    runCleanup b = buildCleanup b := by
  refine ⟨rfl, rfl, rfl, ?_, rfl⟩
  induction stderrLines with
  | nil => rfl
  | cons l ls ih => simp [runProcessStderr, buildProcessStderr, runFormatLine,
      buildFormatLine, ih]

end Buddy
